import Mathlib

/-!
Shallow embedding of `src/pyasdf/src/fastyaml.c`: a CPython extension module
that materializes a libyaml event stream into a Python value tree.

Modelling conventions, stated once:

* Python objects are modelled by `Value`: immutable scalars carry their
  payload directly, while every mutable container (list, dict, ordered dict,
  tag-callback wrapper) lives in an explicit heap of `Cell`s and is denoted
  by its address, `Value.ref`.  This mirrors `PyObject *` pointer sharing:
  registering an anchor stores the address, an alias returns the same
  address, and later in-place mutation of the container is visible through
  every copy of the address.
* Finite doubles are modelled as exact decimal rationals (`YFloat.finite`);
  NaN and the two infinities, the only float values any claim observes, are
  distinguished symbols.
* C strings (`char *` for tags and anchors) are modelled as `String`, with
  `""` standing for both `NULL` and the empty string: every guard in the C
  source (`tag != NULL && tag[0] != 0`, likewise for anchors) treats the two
  alike.
* libyaml guarantees scalar bytes are valid UTF-8 and NUL-terminated, so
  `PyUnicode_DecodeUTF8` is modelled as the identity on `String`, and
  `strncmp(value + i, "lit", strlen("lit") + 1) == 0` is exact equality of
  the remaining text with `"lit"`.
* `PyInt_FromString(str, &end, base)` combined with the caller's whole-match
  check (`end == expected_end`, or a cleared error) is modelled as
  `pyIntFromString`: an optional sign followed by one or more digits of the
  base, consuming the entire text.  CPython extras that no claim touches
  (surrounding whitespace, underscore grouping, a redundant `0x` prefix for
  base 16) are not modelled.
* `PyOS_string_to_double` with the caller's whole-match check is modelled as
  `pyFloatParse`: optional sign, decimal digits with optional fraction, and
  an optional exponent, consuming the entire text; the value is kept as an
  exact rational.  Overflow to an error-raising HUGE_VAL and the word forms
  `inf`/`nan` (unreachable behind `_make_scalar`'s digit-or-dot guard) are
  not modelled.
* Out-of-memory failures of `PyList_New`, `PyDict_New`,
  `PyDict_SetItemString` and the ordered-dict constructor are not modelled:
  allocation succeeds.
* Python `==` on mapping keys is modelled as structural equality of `Value`
  (address identity for containers).  Cross-type numeric equality
  (`1 == True`), NaN-key identity subtleties, and the TypeError on
  unhashable (container) keys are not modelled; no claim compares such keys.
* The recursion of the C parser is driven through an explicit fuel
  parameter, an embedding artifact sized by the callers so that it never
  runs out on the events actually supplied.
-/

namespace FastYaml

/-- Model of a Python float as produced by this parser: NaN, the two signed
infinities, and finite values kept as exact decimal rationals. -/
inductive YFloat where
  | nan
  | inf
  | negInf
  | finite (q : ℚ)
deriving DecidableEq

/-- Model of a Python object reference: scalars are immutable and carried
directly; every mutable container is a heap cell denoted by its address. -/
inductive Value where
  | null
  | bool (b : Bool)
  | int (n : Int)
  | float (f : YFloat)
  | str (s : String)
  | ref (addr : Nat)
deriving DecidableEq

/-- A mutable container cell: a list, a dict, the external ordered-dict, or
a wrapper object returned by the external tag callback (the wrapped classes
of `pyasdf.tagged` subclass their container, so appends and item assignments
on a wrapper act on the wrapped container). -/
inductive Cell where
  | cseq (xs : List Value)
  | cmap (xs : List (Value × Value))
  | comap (xs : List (Value × Value))
  | ctagged (t : String) (inner : Value)
deriving DecidableEq

/-- The `IS_DIGIT` macro of the source: `'0' <= c && c <= '9'`. -/
def IS_DIGIT (c : Char) : Bool := '0' ≤ c ∧ c ≤ '9'

/-- Value of one hexadecimal digit character, if any. -/
def hexDigitVal (c : Char) : Option Nat :=
  if '0' ≤ c ∧ c ≤ '9' then some (c.toNat - '0'.toNat)
  else if 'a' ≤ c ∧ c ≤ 'f' then some (c.toNat - 'a'.toNat + 10)
  else if 'A' ≤ c ∧ c ≤ 'F' then some (c.toNat - 'A'.toNat + 10)
  else none

/-- Value of one digit character in the given base, if in range. -/
def digitValInBase (base : Nat) (c : Char) : Option Nat :=
  match hexDigitVal c with
  | some d => if d < base then some d else none
  | none => none

/-- Accumulating digit parse: all remaining characters must be digits of the
base. -/
def parseDigitsAcc (base : Nat) (acc : Nat) : List Char → Option Nat
  | [] => some acc
  | c :: rest =>
      match digitValInBase base c with
      | some d => parseDigitsAcc base (acc * base + d) rest
      | none => none

/-- Whole-text digit run: nonempty, every character a digit of the base. -/
def parseDigits (base : Nat) : List Char → Option Nat
  | [] => none
  | c :: rest =>
      match digitValInBase base c with
      | some d => parseDigitsAcc base d rest
      | none => none

/-- Model of `PyInt_FromString(str, &end, base)` as used by `_make_scalar`:
the call sites accept the result only when the whole text was consumed
(`end == expected_end`) and otherwise discard it, so the model returns the
integer exactly when the whole text is an optional sign followed by a
nonempty digit run of the base. -/
def pyIntFromString (cs : List Char) (base : Nat) : Option Int :=
  match cs with
  | '-' :: rest => (parseDigits base rest).map (fun n => -(n : Int))
  | '+' :: rest => (parseDigits base rest).map (fun n => (n : Int))
  | _ => (parseDigits base cs).map (fun n => (n : Int))

/-- Longest digit prefix and the remainder. -/
def spanDigits : List Char → List Char × List Char
  | [] => ([], [])
  | c :: rest =>
      if IS_DIGIT c then
        let (ds, r) := spanDigits rest
        (c :: ds, r)
      else ([], c :: rest)

/-- Numeric value of a base-10 digit list, accumulator style. -/
def digitsVal10 (acc : Nat) : List Char → Nat
  | [] => acc
  | c :: rest => digitsVal10 (acc * 10 + (c.toNat - '0'.toNat)) rest

/-- Exponent tail of a float literal: optional sign then a whole digit run. -/
def parseExponent : List Char → Option Int
  | '+' :: r => (parseDigits 10 r).map (fun n => (n : Int))
  | '-' :: r => (parseDigits 10 r).map (fun n => -(n : Int))
  | r => (parseDigits 10 r).map (fun n => (n : Int))

/-- Model of `PyOS_string_to_double` under the caller's whole-match check:
optional sign, decimal digits with optional fraction (at least one digit in
the mantissa), optional exponent; the value is the exact rational. -/
def pyFloatParse (cs : List Char) : Option YFloat :=
  let sb : Bool × List Char :=
    match cs with
    | '-' :: t => (true, t)
    | '+' :: t => (false, t)
    | t => (false, t)
  let neg := sb.1
  let (ip, r1) := spanDigits sb.2
  let fr : List Char × List Char :=
    match r1 with
    | '.' :: r => spanDigits r
    | r => ([], r)
  let fp := fr.1
  if ip = [] ∧ fp = [] then none
  else
    let e : Option Int :=
      match fr.2 with
      | [] => some 0
      | 'e' :: r => parseExponent r
      | 'E' :: r => parseExponent r
      | _ => none
    match e with
    | none => none
    | some ev =>
        let mant : ℚ := (digitsVal10 0 ip : ℚ) + (digitsVal10 0 fp : ℚ) / ((10 : ℚ) ^ fp.length)
        let mag : ℚ := mant * (10 : ℚ) ^ ev
        some (.finite (if neg then -mag else mag))

/-- The generic numeric fallback at the bottom of `_make_scalar`: `full` is
the whole scalar text (`value`), `ns` the text after an optional sign
(`numstart`).  If `numstart[0]` is a digit or a dot, try a whole-text base-10
integer parse of `value`, then a whole-text float parse of `value`;
otherwise, and on both failures, decode the text as a string. -/
def numFallback (full ns : List Char) : Value :=
  match ns with
  | [] => Value.str (String.mk full)
  | c :: _ =>
      if IS_DIGIT c ∨ c = '.' then
        match pyIntFromString full 10 with
        | some n => Value.int n
        | none =>
            match pyFloatParse full with
            | some f => Value.float f
            | none => Value.str (String.mk full)
      else Value.str (String.mk full)

/-- Core of `_make_scalar` on an unquoted, nonempty scalar text, following
the `switch (value[0])` of the source.  The four-byte `strncmp`s against the
NUL-terminated literals `"NaN"`, `"nan"`, `"Inf"`, `"inf"`, `"ull"`, `"rue"`,
`"alse"` are whole-remainder comparisons. -/
def resolveCore (cs : List Char) : Value :=
  match cs with
  | [] => Value.str ""
  | c :: rest =>
      if c = '.' then
        if rest = ['N', 'a', 'N'] then Value.float .nan
        else if rest = ['n', 'a', 'n'] then Value.float .nan
        else if rest = ['I', 'n', 'f'] then Value.float .inf
        else if rest = ['i', 'n', 'f'] then Value.float .inf
        else numFallback cs cs
      else if c = '0' then
        match rest with
        | [] => Value.int 0
        | d :: ds =>
            if d = 'x' then
              match pyIntFromString ds 16 with
              | some n => Value.int n
              | none => numFallback cs cs
            else if '0' ≤ d ∧ d ≤ '8' then
              match pyIntFromString rest 8 with
              | some n => Value.int n
              | none => numFallback cs cs
            else numFallback cs cs
      else if c = '-' then
        match rest with
        | '.' :: rest2 =>
            if rest2 = ['I', 'n', 'f'] then Value.float .negInf
            else if rest2 = ['i', 'n', 'f'] then Value.float .negInf
            else numFallback cs rest
        | _ => numFallback cs rest
      else if c = '+' then
        match rest with
        | '.' :: rest2 =>
            if rest2 = ['I', 'n', 'f'] then Value.float .inf
            else if rest2 = ['i', 'n', 'f'] then Value.float .inf
            else numFallback cs rest
        | _ => numFallback cs rest
      else if c = 'n' then
        if rest = ['u', 'l', 'l'] then Value.null else Value.str (String.mk cs)
      else if c = 't' then
        if rest = ['r', 'u', 'e'] then Value.bool true else Value.str (String.mk cs)
      else if c = 'f' then
        if rest = ['a', 'l', 's', 'e'] then Value.bool false else Value.str (String.mk cs)
      else numFallback cs cs

/-- Scalar quoting styles of libyaml that `_make_scalar` distinguishes. -/
inductive Style where
  | any
  | plain
  | singleQuoted
  | doubleQuoted
  | literal
  | folded
deriving DecidableEq

/-- `_make_scalar`: implicit type resolution of one scalar event.  An empty,
single-quoted or double-quoted scalar is decoded as a string
unconditionally; otherwise the unquoted text goes through `resolveCore`. -/
def _make_scalar (text : String) (style : Style) : Value :=
  if text.length = 0 ∨ style = Style.singleQuoted ∨ style = Style.doubleQuoted then
    Value.str text
  else resolveCore text.toList


/-- The libyaml events consumed by the parser.  Tags and anchors are
`String`, with `""` standing for NULL or empty (the source guards treat them
alike); event payloads the source never reads are omitted. -/
inductive Event where
  | streamStart
  | streamEnd
  | docStart
  | docEnd
  | seqStart (tag : String) (anchor : String)
  | seqEnd
  | mapStart (tag : String) (anchor : String)
  | mapEnd
  | scalar (text : String) (style : Style) (tag : String) (anchor : String)
  | alias (anchor : String)
deriving DecidableEq

/-- Whether an event is a mapping-start event (the `event->type ==
YAML_MAPPING_START_EVENT` check compares the type only, not the payload). -/
def isMapStart : Event → Bool
  | .mapStart _ _ => true
  | _ => false

/-- The Python exceptions this module can leave set.  `valueError` carries
the exact message of the corresponding `PyErr_SetString` call; `tagError`
models whatever exception the external tag callback raised; `typeError` an
item assignment or append failure; `sysError` CPython's SystemError on
calling a method of NULL; `outOfFuel` is an artifact of the fuel-indexed
embedding, unreachable whenever the fuel exceeds the work in the event
list. -/
inductive PyErr where
  | valueError (msg : String)
  | tagError (tag : String)
  | typeError
  | sysError
  | outOfFuel
deriving DecidableEq

/-- Parser state: the pending event list, the `yaml_event_t event` variable
(holding the last event read), the Python error indicator
(`PyErr_Occurred`), the per-document anchor dictionary, and the heap of
mutable container cells. -/
structure PState where
  events : List Event
  cur : Event
  err : Option PyErr
  anchors : List (String × Value)
  heap : List Cell

/-- The external tag-resolution callback `pyasdf.tagged.tag_object`, bound
at module initialization: given a nonempty tag, a constructed object and the
heap, it returns the (possibly new, possibly wrapped) object and the heap
extended by whatever it allocated, or `none` if it raised. -/
def TagFun : Type := String → Value → List Cell → Option (Value × List Cell)

/-- Model of `yaml_parser_parse`: read the next event into `cur`.  An empty
list models the only failure mode represented (scanner failure); on failure
`cur` keeps its previous, now stale, contents, exactly as the C event
variable does. -/
def pumpEvent (s : PState) : Bool × PState :=
  match s.events with
  | [] => (false, s)
  | e :: rest => (true, { s with events := rest, cur := e })

/-- Overwriting insertion into the anchor dictionary
(`PyDict_SetItemString`). -/
def setAnchor : List (String × Value) → String → Value → List (String × Value)
  | [], n, v => [(n, v)]
  | (n2, v2) :: t, n, v =>
      if n2 = n then (n2, v) :: t else (n2, v2) :: setAnchor t n v

/-- Anchor lookup (`PyDict_GetItemString`): the registered value or `none`,
without setting an error. -/
def lookupAnchor : List (String × Value) → String → Option Value
  | [], _ => none
  | (n2, v2) :: t, n => if n2 = n then some v2 else lookupAnchor t n

/-- `memo_anchor`: register `obj` under `anchor_name` unless the name is
NULL or empty or the object is absent.  The C function returns a status that
can only signal allocation failure, which is not modelled. -/
def memo_anchor (anchors : List (String × Value)) (anchor_name : String)
    (obj : Option Value) : List (String × Value) :=
  match obj with
  | some v => if anchor_name ≠ "" then setAnchor anchors anchor_name v else anchors
  | none => anchors

/-- `make_alias`: look the alias's anchor up in the anchor dictionary.
`PyDict_GetItemString` returns NULL without setting an error when the key is
absent, so an undefined anchor yields a bare `none`; a defined one yields
the registered object itself (the same address, no copy). -/
def make_alias (anchors : List (String × Value)) (anchor : String) : Option Value :=
  lookupAnchor anchors anchor

/-- `tag_object`: if the instance is present and the tag nonempty, call the
external tag callback (failure leaves its exception set); otherwise return
the instance unchanged. -/
def tag_object (tf : TagFun) (tag : String) (inst : Option Value) (s : PState) :
    Option Value × PState :=
  match inst with
  | none => (none, s)
  | some v =>
      if tag ≠ "" then
        match tf tag v s.heap with
        | some (w, h2) => (some w, { s with heap := h2 })
        | none => (none, { s with err := some (.tagError tag) })
      else (some v, s)

/-- `PyObject_CallMethod(result, "append", "O", subresult)`: append to the
list cell the target denotes, delegating through tag-callback wrappers;
`none` models the TypeError or AttributeError CPython raises when the object
has no usable `append`.  The fuel bounds wrapper chains (callers pass the
heap size plus one, which any acyclic chain satisfies). -/
def appendItem (h : List Cell) : Nat → Value → Value → Option (List Cell)
  | 0, _, _ => none
  | fuel + 1, .ref a, v =>
      match h.get? a with
      | some (.cseq xs) => some (h.set a (.cseq (xs ++ [v])))
      | some (.ctagged _ inner) => appendItem h fuel inner v
      | _ => none
  | _ + 1, _, _ => none

/-- Overwriting insertion into a key/value pair list under the modelled
Python `==` on keys (structural equality of `Value`, address identity for
containers); an existing key keeps its position, as in a CPython dict. -/
def setPair : List (Value × Value) → Value → Value → List (Value × Value)
  | [], k, v => [(k, v)]
  | (k2, v2) :: t, k, v =>
      if k2 = k then (k2, v) :: t else (k2, v2) :: setPair t k v

/-- `PyObject_SetItem(result, key, value)` on the containers this parser
builds, delegating through tag-callback wrappers; `none` models the
TypeError on an object that does not support item assignment. -/
def setItem (h : List Cell) : Nat → Value → Value → Value → Option (List Cell)
  | 0, _, _, _ => none
  | fuel + 1, .ref a, k, v =>
      match h.get? a with
      | some (.cmap xs) => some (h.set a (.cmap (setPair xs k v)))
      | some (.comap xs) => some (h.set a (.comap (setPair xs k v)))
      | some (.ctagged _ inner) => setItem h fuel inner k v
      | _ => none
  | _ + 1, _, _, _ => none

/-- `make_scalar`: resolve the scalar, route it through `tag_object`, then
register the anchor. -/
def make_scalar (tf : TagFun) (text : String) (style : Style) (tag anchor : String)
    (s : PState) : Option Value × PState :=
  let scalar0 := some (_make_scalar text style)
  let ts := tag_object tf tag scalar0 s
  let s2 := { ts.2 with anchors := memo_anchor ts.2.anchors anchor ts.1 }
  (ts.1, s2)

/-- The whole-string comparison `strncmp(tag, "tag:yaml.org,2002:omap", 23)
== 0` in `parse_sequence` matches exactly this tag. -/
def omapTag : String := "tag:yaml.org,2002:omap"

mutual
/-- `parse_node`: pull one event and dispatch on its type.  The `default`
branch of the C switch returns NULL without setting an error — this is how
the container loops detect their end events. -/
def parse_node (tf : TagFun) : Nat → PState → Option Value × PState
  | 0, s => (none, { s with err := some .outOfFuel })
  | fuel + 1, s =>
      let ps := pumpEvent s
      if ps.1 = false then
        (none, { ps.2 with err := some (.valueError "Parsing error 3") })
      else
        match ps.2.cur with
        | .alias a => (make_alias ps.2.anchors a, ps.2)
        | .scalar text style tag anchor => make_scalar tf text style tag anchor ps.2
        | .seqStart tag anchor => parse_sequence tf fuel tag anchor ps.2
        | .mapStart tag anchor => parse_mapping tf fuel tag anchor ps.2
        | _ => (none, ps.2)

/-- `parse_sequence`: an `omap`-tagged sequence start delegates to
`parse_ordered_dict`; otherwise allocate an empty list, apply the tag,
register the anchor (on the tagged, still-empty container), then loop
appending child nodes until the loop's `parse_node` fails on the
sequence-end event. -/
def parse_sequence (tf : TagFun) : Nat → String → String → PState → Option Value × PState
  | 0, _, _, s => (none, { s with err := some .outOfFuel })
  | fuel + 1, tag, anchor, s =>
      if tag = omapTag then parse_ordered_dict tf fuel anchor s
      else
        let res := Value.ref s.heap.length
        let s1 := { s with heap := s.heap ++ [Cell.cseq []] }
        let ts := tag_object tf tag (some res) s1
        let s2 := { ts.2 with anchors := memo_anchor ts.2.anchors anchor ts.1 }
        seqLoop tf fuel ts.1 s2

/-- The `while ((subresult = parse_node(...)))` loop of `parse_sequence`:
append each child; when `parse_node` fails, a current event of sequence-end
ends the sequence normally (returning the result and leaving any pending
error untouched), anything else replaces the error with "Expected sequence
end event". -/
def seqLoop (tf : TagFun) : Nat → Option Value → PState → Option Value × PState
  | 0, _, s => (none, { s with err := some .outOfFuel })
  | fuel + 1, result, s =>
      let ns := parse_node tf fuel s
      match ns.1 with
      | none =>
          if ns.2.cur = Event.seqEnd then (result, ns.2)
          else (none, { ns.2 with err := some (.valueError "Expected sequence end event") })
      | some subv =>
          match result with
          | none => (none, { ns.2 with err := some .sysError })
          | some res =>
              match appendItem ns.2.heap (ns.2.heap.length + 1) res subv with
              | none => (none, { ns.2 with err := some .typeError })
              | some h2 => seqLoop tf fuel result { ns.2 with heap := h2 }

/-- `parse_mapping`: allocate an empty dict, apply the tag, register the
anchor (on the tagged, still-empty container), then loop inserting key/value
pairs until the key-position `parse_node` fails on the mapping-end event. -/
def parse_mapping (tf : TagFun) : Nat → String → String → PState → Option Value × PState
  | 0, _, _, s => (none, { s with err := some .outOfFuel })
  | fuel + 1, tag, anchor, s =>
      let res := Value.ref s.heap.length
      let s1 := { s with heap := s.heap ++ [Cell.cmap []] }
      let ts := tag_object tf tag (some res) s1
      let s2 := { ts.2 with anchors := memo_anchor ts.2.anchors anchor ts.1 }
      mapLoop tf fuel ts.1 s2

/-- The `while ((key = parse_node(...)))` loop of `parse_mapping`. -/
def mapLoop (tf : TagFun) : Nat → Option Value → PState → Option Value × PState
  | 0, _, s => (none, { s with err := some .outOfFuel })
  | fuel + 1, result, s =>
      let ks := parse_node tf fuel s
      match ks.1 with
      | none =>
          if ks.2.cur = Event.mapEnd then (result, ks.2)
          else (none, { ks.2 with err := some (.valueError "Expected mapping end event") })
      | some k =>
          let vs := parse_node tf fuel ks.2
          match vs.1 with
          | none => (none, vs.2)
          | some v =>
              match result with
              | none => (none, { vs.2 with err := some .sysError })
              | some res =>
                  match setItem vs.2.heap (vs.2.heap.length + 1) res k v with
                  | none => (none, { vs.2 with err := some .typeError })
                  | some h2 => mapLoop tf fuel result { vs.2 with heap := h2 }

/-- `parse_ordered_dict`: construct the external ordered-dict container
(assumed to allocate successfully), register the anchor — note: without any
call to `tag_object` — then read single-pair mapping blocks until the
sequence-end event. -/
def parse_ordered_dict (tf : TagFun) : Nat → String → PState → Option Value × PState
  | 0, _, s => (none, { s with err := some .outOfFuel })
  | fuel + 1, anchor, s =>
      let res := Value.ref s.heap.length
      let s1 := { s with heap := s.heap ++ [Cell.comap []] }
      let s2 := { s1 with anchors := memo_anchor s1.anchors anchor (some res) }
      omapLoop tf fuel res s2

/-- The `while (1)` loop of `parse_ordered_dict`: each entry is a
mapping-start, one key node, one value node, and a required mapping-end. -/
def omapLoop (tf : TagFun) : Nat → Value → PState → Option Value × PState
  | 0, _, s => (none, { s with err := some .outOfFuel })
  | fuel + 1, result, s =>
      let ps := pumpEvent s
      if ps.1 = false then
        (none, { ps.2 with err := some (.valueError "Parsing error 1") })
      else if ps.2.cur = Event.seqEnd then (some result, ps.2)
      else if isMapStart ps.2.cur = false then
        (none, { ps.2 with err := some (.valueError "Expected mapping start or sequence end event") })
      else
        let ks := parse_node tf fuel ps.2
        match ks.1 with
        | none => (none, ks.2)
        | some k =>
            let vs := parse_node tf fuel ks.2
            match vs.1 with
            | none => (none, vs.2)
            | some v =>
                match setItem vs.2.heap (vs.2.heap.length + 1) result k v with
                | none => (none, { vs.2 with err := some .typeError })
                | some h2 =>
                    let ps2 := pumpEvent { vs.2 with heap := h2 }
                    if ps2.1 = false then
                      (none, { ps2.2 with err := some (.valueError "Parsing error 2") })
                    else if ps2.2.cur = Event.mapEnd then omapLoop tf fuel result ps2.2
                    else
                      (none, { ps2.2 with err := some (.valueError "Expected mapping end event") })
end

/-- `parse_document`: create a fresh anchor dictionary, require a
document-start event, build the root node, require a document-end event. -/
def parse_document (tf : TagFun) (fuel : Nat) (s : PState) : Option Value × PState :=
  let s0 := { s with anchors := ([] : List (String × Value)) }
  let ps := pumpEvent s0
  if ps.1 = false then (none, { ps.2 with err := some (.valueError "Parsing error 4") })
  else if ps.2.cur = Event.docStart then
    let ns := parse_node tf fuel ps.2
    match ns.1 with
    | none => (none, ns.2)
    | some r =>
        let ps2 := pumpEvent ns.2
        if ps2.1 = false then
          (none, { ps2.2 with err := some (.valueError "Parsing error 5") })
        else if ps2.2.cur = Event.docEnd then (some r, ps2.2)
        else (none, { ps2.2 with err := some (.valueError "Expected document end event") })
  else (none, { ps.2 with err := some (.valueError "Expected document start event") })

/-- `parse_stream`: require a stream-start event, parse exactly one
document, then require a stream-end event. -/
def parse_stream (tf : TagFun) (fuel : Nat) (s : PState) : Option Value × PState :=
  let ps := pumpEvent s
  if ps.1 = false then (none, { ps.2 with err := some (.valueError "Parsing error 6") })
  else if ps.2.cur = Event.streamStart then
    let ds := parse_document tf fuel ps.2
    match ds.1 with
    | none => (none, ds.2)
    | some r =>
        let ps2 := pumpEvent ds.2
        if ps2.1 = false then
          (none, { ps2.2 with err := some (.valueError "Parsing error 7") })
        else if ps2.2.cur = Event.streamEnd then (some r, ps2.2)
        else (none, { ps2.2 with err := some (.valueError "Expected stream end event") })
  else (none, { ps.2 with err := some (.valueError "Expected stream start event") })

/-- Initial parser state.  `cur` mirrors the uninitialized `yaml_event_t`
stack variable of `parse_yaml`; every execution path reads an event before
inspecting it, so the chosen filler is never observed. -/
def initState (events : List Event) : PState :=
  ⟨events, Event.streamStart, none, [], []⟩

/-- `parse_yaml`, the module's public entry point: run `parse_stream` and
translate the (result, error-indicator) pair into the call's outcome — a
NULL result with no exception set becomes the generic ValueError "Error
parsing YAML", a set exception always makes the call fail, and otherwise the
root object is returned together with the final heap (the object graph it
points into). -/
def parse_yaml (tf : TagFun) (events : List Event) : Except PyErr (Value × List Cell) :=
  let rs := parse_stream tf (3 * events.length + 8) (initState events)
  match rs.1 with
  | none =>
      match rs.2.err with
      | some e => .error e
      | none => .error (.valueError "Error parsing YAML")
  | some r =>
      match rs.2.err with
      | some e => .error e
      | none => .ok (r, rs.2.heap)

/-- Immutable readback of a parse result, used to state what an object graph
denotes: a tree of nulls, bools, ints, floats, strings, sequences, mappings,
ordered mappings, and tag-wrapper nodes. -/
inductive Tree where
  | null
  | bool (b : Bool)
  | int (n : Int)
  | float (f : YFloat)
  | str (s : String)
  | seq (xs : List Tree)
  | map (xs : List (Tree × Tree))
  | omap (xs : List (Tree × Tree))
  | tagged (t : String) (v : Tree)

mutual
/-- Dereference an object into its tree, failing on dangling references or
(for any fuel) on cyclic graphs. -/
def freeze (h : List Cell) : Nat → Value → Option Tree
  | 0, _ => none
  | _ + 1, .null => some .null
  | _ + 1, .bool b => some (.bool b)
  | _ + 1, .int n => some (.int n)
  | _ + 1, .float f => some (.float f)
  | _ + 1, .str s => some (.str s)
  | fuel + 1, .ref a =>
      match h.get? a with
      | some (.cseq xs) => (freezeL h fuel xs).map Tree.seq
      | some (.cmap xs) => (freezeP h fuel xs).map Tree.map
      | some (.comap xs) => (freezeP h fuel xs).map Tree.omap
      | some (.ctagged t inner) => (freeze h fuel inner).map (Tree.tagged t)
      | none => none

/-- Readback of a list of objects. -/
def freezeL (h : List Cell) : Nat → List Value → Option (List Tree)
  | 0, _ => none
  | _ + 1, [] => some []
  | fuel + 1, v :: vs =>
      match freeze h fuel v, freezeL h fuel vs with
      | some t, some ts => some (t :: ts)
      | _, _ => none

/-- Readback of a list of key/value pairs. -/
def freezeP (h : List Cell) : Nat → List (Value × Value) → Option (List (Tree × Tree))
  | 0, _ => none
  | _ + 1, [] => some []
  | fuel + 1, (k, v) :: vs =>
      match freeze h fuel k, freeze h fuel v, freezeP h fuel vs with
      | some tk, some tv, some ts => some ((tk, tv) :: ts)
      | _, _, _ => none
end

/-- `parse_yaml` followed by readback of the object graph into a tree;
`fuel` is the explicit recursion bound handed to `freeze` (a `some` result is
meaningful for any fuel, and larger fuel never turns a `some` into `none`). -/
def parseToTree (tf : TagFun) (events : List Event) (fuel : Nat) :
    Except PyErr (Option Tree) :=
  match parse_yaml tf events with
  | .error e => .error e
  | .ok (v, h) => .ok (freeze h fuel v)

/-- A tag callback that wraps every value it is given in a fresh wrapper
cell; used to make tag-hook invocations observable in concrete runs. -/
def tagWrap : TagFun := fun t v h => some (.ref h.length, h ++ [.ctagged t v])

/-- Whether `pat` occurs as a contiguous segment of the second list; used to
state that an error message does not mention an anchor name. -/
def containsSeg (pat : List Char) : List Char → Bool
  | [] => decide (pat = [])
  | c :: rest => List.isPrefixOf pat (c :: rest) || containsSeg pat rest

theorem lookupAnchor_setAnchor (l : List (String × Value)) (n : String) (v : Value) :
    lookupAnchor (setAnchor l n v) n = some v := by
  induction l with
  | nil => simp [setAnchor, lookupAnchor]
  | cons p t ih =>
      rcases p with ⟨n2, v2⟩
      by_cases h : n2 = n
      · simp [setAnchor, lookupAnchor, h]
      · simp [setAnchor, lookupAnchor, h, ih]

example : _make_scalar "0x1A" Style.plain = Value.int 26 := rfl
example : _make_scalar "0x1G" Style.plain = Value.str "0x1G" := rfl
example : _make_scalar "010" Style.plain = Value.int 8 := rfl
example : _make_scalar "0" Style.plain = Value.int 0 := rfl
example : _make_scalar "019" Style.plain = Value.int 19 := rfl
example : _make_scalar ".NaN" Style.plain = Value.float .nan := rfl
example : _make_scalar "-.Inf" Style.plain = Value.float .negInf := rfl
example : _make_scalar "+.inf" Style.plain = Value.float .inf := rfl
example : _make_scalar ".NAN" Style.plain = Value.str ".NAN" := rfl
example : _make_scalar "null" Style.plain = Value.null := rfl
example : _make_scalar "true" Style.plain = Value.bool true := rfl
example : _make_scalar "false" Style.plain = Value.bool false := rfl
example : _make_scalar "Null" Style.plain = Value.str "Null" := rfl
example : _make_scalar "~" Style.plain = Value.str "~" := rfl
example : _make_scalar "123" Style.doubleQuoted = Value.str "123" := rfl
example : _make_scalar "-12" Style.plain = Value.int (-12) := rfl
example : _make_scalar "-" Style.plain = Value.str "-" := rfl
example : (pyFloatParse "1.5".toList).isSome = true := rfl
example : _make_scalar "123abc" Style.plain = Value.str "123abc" := rfl

example :
    parseToTree tagWrap
      [.streamStart, .docStart, .scalar "hi" .plain "" "", .docEnd, .streamEnd] 20
      = .ok (some (.str "hi")) := rfl

example :
    parseToTree tagWrap
      [.streamStart, .docStart,
       .seqStart "" "", .scalar "1" .plain "" "", .scalar "x" .plain "!foo" "", .seqEnd,
       .docEnd, .streamEnd] 20
      = .ok (some (.seq [.int 1, .tagged "!foo" (.str "x")])) := rfl

example :
    parseToTree tagWrap
      [.streamStart, .docStart,
       .mapStart "" "", .scalar "a" .plain "" "", .scalar "1" .plain "" "", .mapEnd,
       .docEnd, .streamEnd] 20
      = .ok (some (.map [(.str "a", .int 1)])) := rfl

example :
    parseToTree tagWrap
      [.streamStart, .docStart,
       .seqStart omapTag "",
       .mapStart "" "", .scalar "k1" .plain "" "", .scalar "1" .plain "" "", .mapEnd,
       .mapStart "" "", .scalar "k2" .plain "" "", .scalar "2" .plain "" "", .mapEnd,
       .seqEnd,
       .docEnd, .streamEnd] 20
      = .ok (some (.omap [(.str "k1", .int 1), (.str "k2", .int 2)])) := rfl

example :
    parse_yaml tagWrap
      [.streamStart, .docStart,
       .seqStart "" "",
       .seqStart "" "a", .scalar "1" .plain "" "", .scalar "2" .plain "" "", .seqEnd,
       .alias "a",
       .seqEnd,
       .docEnd, .streamEnd]
      = .ok (.ref 0, [.cseq [.ref 1, .ref 1], .cseq [.int 1, .int 2]]) := rfl

example :
    parseToTree tagWrap
      [.streamStart, .docStart,
       .seqStart "" "",
       .seqStart "" "a", .scalar "1" .plain "" "", .scalar "2" .plain "" "", .seqEnd,
       .alias "a",
       .seqEnd,
       .docEnd, .streamEnd] 20
      = .ok (some (.seq [.seq [.int 1, .int 2], .seq [.int 1, .int 2]])) := rfl

example :
    parse_yaml tagWrap [.streamStart, .docStart, .alias "nope", .docEnd, .streamEnd]
      = .error (.valueError "Error parsing YAML") := rfl

example :
    parse_yaml tagWrap
      [.streamStart, .docStart, .scalar "1" .plain "" "", .docEnd,
       .docStart, .scalar "2" .plain "" "", .docEnd, .streamEnd]
      = .error (.valueError "Expected stream end event") := rfl

example :
    parse_yaml tagWrap
      [.streamStart, .docStart, .seqStart omapTag "a", .seqEnd, .docEnd, .streamEnd]
      = .ok (.ref 0, [.comap []]) := rfl

/-- C6: for every scalar whose text length is 0 or whose style is
single-quoted or double-quoted, `_make_scalar` returns the String of the
text itself (UTF-8 decoding is the identity in this model), never a Null,
Bool, Int, or Float, regardless of the text's content. -/
theorem C6_quoted_or_empty_is_string (text : String) (style : Style)
    (h : text.length = 0 ∨ style = Style.singleQuoted ∨ style = Style.doubleQuoted) :
    _make_scalar text style = Value.str text := by
  unfold _make_scalar
  exact if_pos h

theorem C6_witness :
    _make_scalar "123" Style.doubleQuoted = Value.str "123" ∧
    _make_scalar "true" Style.singleQuoted = Value.str "true" ∧
    _make_scalar "" Style.plain = Value.str "" :=
  ⟨C6_quoted_or_empty_is_string "123" Style.doubleQuoted (Or.inr (Or.inr rfl)),
   C6_quoted_or_empty_is_string "true" Style.singleQuoted (Or.inr (Or.inl rfl)),
   C6_quoted_or_empty_is_string "" Style.plain (Or.inl rfl)⟩

/-- C7: hex and octal whole-match policy of the unquoted scalar resolver:
`0x1A` is Int 26; `0x1G` (invalid hex) falls through and ends as the string
`0x1G`; `010` is octal Int 8; `0` alone is Int 0; `019` is not octal (the
octal parse of `19` stops at `9`), falls through to the generic decimal
path, and yields Int 19. -/
theorem C7_hex_octal_whole_match :
    _make_scalar "0x1A" Style.plain = Value.int 26 ∧
    _make_scalar "0x1G" Style.plain = Value.str "0x1G" ∧
    _make_scalar "010" Style.plain = Value.int 8 ∧
    _make_scalar "0" Style.plain = Value.int 0 ∧
    _make_scalar "019" Style.plain = Value.int 19 :=
  ⟨rfl, rfl, rfl, rfl, rfl⟩

/-- C8: the special float literals of the unquoted scalar resolver: `.NaN`
and `.nan` give Float NaN; `.Inf` and `.inf` Float +Infinity; `-.Inf` and
`-.inf` Float -Infinity; `+.Inf` and `+.inf` Float +Infinity.  They are
matched as literal byte variants, not case-insensitively: other casings fall
through and end as strings.  They take priority over generic float parsing,
which does not accept any of these spellings (`pyFloatParse` fails on
them). -/
theorem C8_special_float_literals :
    _make_scalar ".NaN" Style.plain = Value.float .nan ∧
    _make_scalar ".nan" Style.plain = Value.float .nan ∧
    _make_scalar ".Inf" Style.plain = Value.float .inf ∧
    _make_scalar ".inf" Style.plain = Value.float .inf ∧
    _make_scalar "-.Inf" Style.plain = Value.float .negInf ∧
    _make_scalar "-.inf" Style.plain = Value.float .negInf ∧
    _make_scalar "+.Inf" Style.plain = Value.float .inf ∧
    _make_scalar "+.inf" Style.plain = Value.float .inf ∧
    _make_scalar ".NAN" Style.plain = Value.str ".NAN" ∧
    _make_scalar ".INF" Style.plain = Value.str ".INF" ∧
    _make_scalar "-.INF" Style.plain = Value.str "-.INF" ∧
    _make_scalar "+.INF" Style.plain = Value.str "+.INF" ∧
    _make_scalar ".nAn" Style.plain = Value.str ".nAn" ∧
    pyFloatParse ".Inf".toList = none ∧
    pyFloatParse "-.inf".toList = none :=
  ⟨rfl, rfl, rfl, rfl, rfl, rfl, rfl, rfl, rfl, rfl, rfl, rfl, rfl, rfl, rfl⟩

/-- C5: an alias returns exactly the value most recently registered under
its name (first conjunct, for any table, name, and value, including
overwrites), and it is the same shared object, not a copy: in the
`&a [1, 2]` then `*a` document, both positions of the outer sequence hold
the same address (`Value.ref 1`), whose cell is the one sequence
`[Int 1, Int 2]` (second conjunct); reading the graph back, both positions
denote equal trees (third conjunct). -/
theorem C5_alias_shares_registered_value
    (anchors : List (String × Value)) (a : String) (v : Value) :
    make_alias (setAnchor anchors a v) a = some v ∧
    parse_yaml tagWrap
      [.streamStart, .docStart,
       .seqStart "" "",
       .seqStart "" "a", .scalar "1" .plain "" "", .scalar "2" .plain "" "", .seqEnd,
       .alias "a",
       .seqEnd,
       .docEnd, .streamEnd]
      = .ok (.ref 0, [.cseq [.ref 1, .ref 1], .cseq [.int 1, .int 2]]) ∧
    parseToTree tagWrap
      [.streamStart, .docStart,
       .seqStart "" "",
       .seqStart "" "a", .scalar "1" .plain "" "", .scalar "2" .plain "" "", .seqEnd,
       .alias "a",
       .seqEnd,
       .docEnd, .streamEnd] 20
      = .ok (some (.seq [.seq [.int 1, .int 2], .seq [.int 1, .int 2]])) :=
  ⟨lookupAnchor_setAnchor anchors a v, rfl, rfl⟩

set_option maxHeartbeats 1000000 in
/-- C10: a mapping whose event stream has two entries with equal keys does
not fail: the later value overwrites the earlier one in place (universally
over the two value scalars and any tag callback), and end to end
`{k: 1, k: 2}` materializes to the mapping `{k: 2}`. -/
theorem C10_duplicate_keys_overwrite (tf : TagFun) (t1 : String) (s1 : Style)
    (t2 : String) (s2 : Style) (cur : Event) (fuel : Nat) :
    parse_node tf (fuel + 1 + 1 + 1 + 1 + 1 + 1)
      ⟨[.mapStart "" "", .scalar "k" .plain "" "", .scalar t1 s1 "" "",
        .scalar "k" .plain "" "", .scalar t2 s2 "" "", .mapEnd], cur, none, [], []⟩
      = (some (.ref 0),
         ⟨[], .mapEnd, none, [], [Cell.cmap [(.str "k", _make_scalar t2 s2)]]⟩) ∧
    parseToTree tagWrap
      [.streamStart, .docStart,
       .mapStart "" "", .scalar "k" .plain "" "", .scalar "1" .plain "" "",
       .scalar "k" .plain "" "", .scalar "2" .plain "" "", .mapEnd,
       .docEnd, .streamEnd] 20
      = .ok (some (.map [(.str "k", .int 2)])) := by
  constructor
  · simp [parse_node, parse_mapping, mapLoop, make_scalar, tag_object, memo_anchor,
          pumpEvent, setItem, setPair,
          show _make_scalar "k" Style.plain = Value.str "k" from rfl]
  · rfl

/-- C4: for scalars, sequences, and mappings the tag callback is applied
strictly before the anchor is registered, and for containers the anchor is
registered at node-open time while the container is still empty.  First
conjunct: whatever object the callback returns for a scalar is exactly what
gets registered and returned.  Second and third conjuncts: for a sequence
and a mapping whose callback wraps the fresh empty container in a wrapper
object at address 1, an alias occurring among the node's own children
resolves to the wrapper (`ref 1`, the tagged form), never to the raw
pre-tag container (`ref 0`), and the registered anchor is the wrapper. -/
theorem C4_tag_applied_before_anchor_registration :
    (∀ (tf : TagFun) (text : String) (style : Style) (tag anchor : String)
        (s : PState) (w : Value) (h2 : List Cell),
        tag ≠ "" → anchor ≠ "" →
        tf tag (_make_scalar text style) s.heap = some (w, h2) →
        make_scalar tf text style tag anchor s
          = (some w, ⟨s.events, s.cur, s.err, setAnchor s.anchors anchor w, h2⟩) ∧
        lookupAnchor (setAnchor s.anchors anchor w) anchor = some w) ∧
    (∀ (tf : TagFun) (t a : String) (anchors : List (String × Value))
        (rest : List Event) (cur : Event) (fuel : Nat),
        t ≠ omapTag → t ≠ "" → a ≠ "" →
        tf t (.ref 0) [Cell.cseq []]
          = some (.ref 1, [Cell.cseq [], Cell.ctagged t (.ref 0)]) →
        parse_sequence tf (fuel + 1 + 1 + 1 + 1) t a
            ⟨.alias a :: .seqEnd :: rest, cur, none, anchors, []⟩
          = (some (.ref 1),
             ⟨rest, .seqEnd, none, setAnchor anchors a (.ref 1),
              [Cell.cseq [.ref 1], Cell.ctagged t (.ref 0)]⟩)) ∧
    (∀ (tf : TagFun) (t a : String) (anchors : List (String × Value))
        (rest : List Event) (cur : Event) (fuel : Nat),
        t ≠ "" → a ≠ "" →
        tf t (.ref 0) [Cell.cmap []]
          = some (.ref 1, [Cell.cmap [], Cell.ctagged t (.ref 0)]) →
        parse_mapping tf (fuel + 1 + 1 + 1 + 1) t a
            ⟨.scalar "k" .plain "" "" :: .alias a :: .mapEnd :: rest, cur, none, anchors, []⟩
          = (some (.ref 1),
             ⟨rest, .mapEnd, none, setAnchor anchors a (.ref 1),
              [Cell.cmap [(.str "k", .ref 1)], Cell.ctagged t (.ref 0)]⟩)) := by
  refine ⟨?_, ?_, ?_⟩
  · intro tf text style tag anchor s w h2 htag hanchor htf
    constructor
    · simp [make_scalar, tag_object, memo_anchor, htag, hanchor, htf]
    · exact lookupAnchor_setAnchor s.anchors anchor w
  · intro tf t a anchors rest cur fuel ht homap ha htf
    simp [parse_sequence, seqLoop, parse_node, pumpEvent, make_alias, tag_object,
          memo_anchor, appendItem, lookupAnchor_setAnchor, ht, homap, ha, htf]
  · intro tf t a anchors rest cur fuel ht ha htf
    simp [parse_mapping, mapLoop, parse_node, pumpEvent, make_alias, make_scalar,
          tag_object, memo_anchor, setItem, setPair, lookupAnchor_setAnchor,
          ht, ha, htf,
          show _make_scalar "k" Style.plain = Value.str "k" from rfl]

theorem C4_witness :
    (make_scalar tagWrap "x" Style.plain "!t" "n" ⟨[], .streamStart, none, [], []⟩
       = (some (.ref 0),
          ⟨[], .streamStart, none, [("n", .ref 0)], [Cell.ctagged "!t" (.str "x")]⟩)) ∧
    (parse_sequence tagWrap (0 + 1 + 1 + 1 + 1) "!t" "n"
        ⟨[.alias "n", .seqEnd], .streamStart, none, [], []⟩
       = (some (.ref 1),
          ⟨[], .seqEnd, none, [("n", .ref 1)],
           [Cell.cseq [.ref 1], Cell.ctagged "!t" (.ref 0)]⟩)) ∧
    (parse_mapping tagWrap (0 + 1 + 1 + 1 + 1) "!t" "n"
        ⟨[.scalar "k" .plain "" "", .alias "n", .mapEnd], .streamStart, none, [], []⟩
       = (some (.ref 1),
          ⟨[], .mapEnd, none, [("n", .ref 1)],
           [Cell.cmap [(.str "k", .ref 1)], Cell.ctagged "!t" (.ref 0)]⟩)) :=
  ⟨(C4_tag_applied_before_anchor_registration.1 tagWrap "x" Style.plain "!t" "n"
      ⟨[], .streamStart, none, [], []⟩ (.ref 0) [Cell.ctagged "!t" (.str "x")]
      (by decide) (by decide) rfl).1,
   C4_tag_applied_before_anchor_registration.2.1 tagWrap "!t" "n" [] [] .streamStart 0
      (by decide) (by decide) (by decide) rfl,
   C4_tag_applied_before_anchor_registration.2.2 tagWrap "!t" "n" [] [] .streamStart 0
      (by decide) (by decide) rfl⟩

/-- C1 counterexample: parsing the omap-tagged sequence start with the
always-wrapping tag callback `tagWrap` leaves a heap containing only the
raw ordered-map cell — no wrapper cell was allocated, so the tag callback
was never invoked for the omap tag — and the anchor is registered with the
raw container, not a tagged form. -/
theorem C1_counterexample :
    parse_node tagWrap 9
      ⟨[.seqStart omapTag "a", .seqEnd], .streamStart, none, [], []⟩
      = (some (.ref 0), ⟨[], .seqEnd, none, [("a", .ref 0)], [Cell.comap []]⟩) ∧
    parse_yaml tagWrap
      [.streamStart, .docStart, .seqStart omapTag "a", .seqEnd, .docEnd, .streamEnd]
      = .ok (.ref 0, [Cell.comap []]) :=
  ⟨rfl, rfl⟩

/-- C1 amended: on a sequence-start event carrying the ordered-map tag the
builder constructs an empty ordered-map container and then registers the
anchor on that raw container; the Tag Applicator is not invoked for the
omap tag (the result is the same for every tag callback `tf`). -/
theorem C1_amended_no_tag_hook_for_omap (tf : TagFun) (a : String)
    (anchors : List (String × Value)) (h : List Cell) (rest : List Event)
    (cur : Event) (fuel : Nat) (ha : a ≠ "") :
    parse_ordered_dict tf (fuel + 1 + 1) a ⟨.seqEnd :: rest, cur, none, anchors, h⟩
      = (some (.ref h.length),
         ⟨rest, .seqEnd, none, setAnchor anchors a (.ref h.length),
          h ++ [Cell.comap []]⟩) := by
  simp [parse_ordered_dict, omapLoop, pumpEvent, memo_anchor, ha]

theorem C1_witness :
    parse_ordered_dict tagWrap (0 + 1 + 1) "a" ⟨[.seqEnd], .streamStart, none, [], []⟩
      = (some (.ref 0), ⟨[], .seqEnd, none, [("a", .ref 0)], [Cell.comap []]⟩) :=
  C1_amended_no_tag_hook_for_omap tagWrap "a" [] [] [] .streamStart 0 (by decide)

/-- C2 counterexample: an alias to an unregistered anchor makes the parse
fail, but with the fixed generic message "Error parsing YAML" — the same
error for two different anchor names — and the anchor name does not occur
in that message, so the error does not identify the undefined anchor by
name. -/
theorem C2_counterexample :
    parse_yaml tagWrap [.streamStart, .docStart, .alias "myanchor", .docEnd, .streamEnd]
      = .error (.valueError "Error parsing YAML") ∧
    parse_yaml tagWrap [.streamStart, .docStart, .alias "otheranchor", .docEnd, .streamEnd]
      = .error (.valueError "Error parsing YAML") ∧
    containsSeg "myanchor".toList "Error parsing YAML".toList = false ∧
    containsSeg "otheranchor".toList "Error parsing YAML".toList = false :=
  ⟨rfl, rfl, rfl, rfl⟩

/-- C2 amended: an alias whose anchor has no registration fails the parse
fatally — `parse_node` returns no value (the C code returns NULL with no
exception set, so the alias is never resolved to Null or any other value),
and the whole parse fails with the generic "Error parsing YAML" — but the
error does not name the anchor. -/
theorem C2_amended_undefined_anchor_fatal (tf : TagFun) (a : String) :
    (∀ (anchors : List (String × Value)), lookupAnchor anchors a = none →
       ∀ (evs : List Event) (cur : Event) (hp : List Cell) (fuel : Nat),
         parse_node tf (fuel + 1) ⟨.alias a :: evs, cur, none, anchors, hp⟩
           = (none, ⟨evs, .alias a, none, anchors, hp⟩)) ∧
    parse_yaml tf [.streamStart, .docStart, .alias a, .docEnd, .streamEnd]
      = .error (.valueError "Error parsing YAML") := by
  constructor
  · intro anchors hla evs cur hp fuel
    simp [parse_node, pumpEvent, make_alias, hla]
  · simp [parse_yaml, parse_stream, parse_document, parse_node, pumpEvent,
          make_alias, lookupAnchor, initState]

theorem C2_witness :
    parse_node tagWrap (0 + 1) ⟨[.alias "missing"], .streamStart, none, [], []⟩
      = (none, ⟨[], .alias "missing", none, [], []⟩) ∧
    parse_yaml tagWrap [.streamStart, .docStart, .alias "missing", .docEnd, .streamEnd]
      = .error (.valueError "Error parsing YAML") :=
  ⟨(C2_amended_undefined_anchor_fatal tagWrap "missing").1 [] rfl [] .streamStart [] 0,
   (C2_amended_undefined_anchor_fatal tagWrap "missing").2⟩

/-- C3 counterexample: a stream with two well-formed documents does not
succeed: the parse fails with "Expected stream end event" instead of
returning the first document's root. -/
theorem C3_counterexample :
    parse_yaml tagWrap
      [.streamStart, .docStart, .scalar "1" .plain "" "", .docEnd,
       .docStart, .scalar "2" .plain "" "", .docEnd, .streamEnd]
      = .error (.valueError "Expected stream end event") ∧
    (parse_yaml tagWrap
      [.streamStart, .docStart, .scalar "1" .plain "" "", .docEnd,
       .docStart, .scalar "2" .plain "" "", .docEnd, .streamEnd]).toOption = none :=
  ⟨rfl, rfl⟩

/-- C3 amended: for an input stream containing two well-formed documents,
the parse fails with the structural error "Expected stream end event" (the
second document's start event arrives where stream-end is required); only
single-document streams succeed. -/
theorem C3_amended_two_documents_fail (tf : TagFun) (text1 : String) (style1 : Style)
    (text2 : String) (style2 : Style) :
    parse_yaml tf
      [.streamStart, .docStart, .scalar text1 style1 "" "", .docEnd,
       .docStart, .scalar text2 style2 "" "", .docEnd, .streamEnd]
      = .error (.valueError "Expected stream end event") := by
  simp [parse_yaml, parse_stream, parse_document, parse_node, pumpEvent,
        make_scalar, tag_object, memo_anchor, initState]

theorem numFallback_shape (full ns : List Char) :
    (∃ n, numFallback full ns = Value.int n) ∨
    (∃ f, numFallback full ns = Value.float f) ∨
    (∃ s, numFallback full ns = Value.str s) := by
  unfold numFallback
  rcases ns with _ | ⟨c, t⟩
  · exact Or.inr (Or.inr ⟨_, rfl⟩)
  · by_cases hg : (IS_DIGIT c ∨ c = '.')
    · simp only [if_pos hg]
      rcases hI : pyIntFromString full 10 with _ | n
      · rcases hF : pyFloatParse full with _ | f
        · simp only [hI, hF]
          exact Or.inr (Or.inr ⟨_, rfl⟩)
        · simp only [hI, hF]
          exact Or.inr (Or.inl ⟨_, rfl⟩)
      · simp only [hI]
        exact Or.inl ⟨_, rfl⟩
    · simp only [if_neg hg]
      exact Or.inr (Or.inr ⟨_, rfl⟩)

theorem numFallback_ne_null (full ns : List Char) : numFallback full ns ≠ Value.null := by
  rcases numFallback_shape full ns with ⟨n, hn⟩ | ⟨f, hf⟩ | ⟨s, hs⟩
  · simp [hn]
  · simp [hf]
  · simp [hs]

theorem numFallback_ne_bool (full ns : List Char) (b : Bool) :
    numFallback full ns ≠ Value.bool b := by
  rcases numFallback_shape full ns with ⟨n, hn⟩ | ⟨f, hf⟩ | ⟨s, hs⟩
  · simp [hn]
  · simp [hf]
  · simp [hs]

theorem eq_mk_of_toList_eq {s : String} {l : List Char} (h : s.toList = l) :
    s = String.mk l := by
  obtain ⟨data⟩ := s
  exact congrArg String.mk h

theorem resolveCore_eq_null_iff (cs : List Char) :
    resolveCore cs = Value.null ↔ cs = ['n', 'u', 'l', 'l'] := by
  constructor
  · intro h
    rcases cs with _ | ⟨c, rest⟩
    · exact absurd h (by simp [resolveCore])
    · unfold resolveCore at h
      repeat' split at h
      all_goals first
        | exact absurd h (numFallback_ne_null _ _)
        | simp_all
  · rintro rfl
    rfl

theorem resolveCore_eq_bool_iff (cs : List Char) (b : Bool) :
    resolveCore cs = Value.bool b ↔
      ((cs = ['t', 'r', 'u', 'e'] ∧ b = true) ∨
       (cs = ['f', 'a', 'l', 's', 'e'] ∧ b = false)) := by
  constructor
  · intro h
    rcases cs with _ | ⟨c, rest⟩
    · exact absurd h (by simp [resolveCore])
    · unfold resolveCore at h
      repeat' split at h
      all_goals first
        | exact absurd h (numFallback_ne_bool _ _ _)
        | simp_all
  · rintro (⟨rfl, rfl⟩ | ⟨rfl, rfl⟩) <;> rfl

/-- C9: only the lowercase literals resolve to Null and Bool — for every
text and style, the resolver returns Null exactly for the unquoted text
`null`, and Bool exactly for the unquoted texts `true` (giving true) and
`false` (giving false) — while the capitalized and uppercase core-schema
variants and `~` all resolve to Strings. -/
theorem C9_only_lowercase_null_bool :
    (∀ (text : String) (style : Style),
       (_make_scalar text style = Value.null ↔
          (text = "null" ∧ style ≠ Style.singleQuoted ∧ style ≠ Style.doubleQuoted))) ∧
    (∀ (text : String) (style : Style) (b : Bool),
       (_make_scalar text style = Value.bool b ↔
          (((text = "true" ∧ b = true) ∨ (text = "false" ∧ b = false)) ∧
           style ≠ Style.singleQuoted ∧ style ≠ Style.doubleQuoted))) ∧
    _make_scalar "Null" Style.plain = Value.str "Null" ∧
    _make_scalar "NULL" Style.plain = Value.str "NULL" ∧
    _make_scalar "~" Style.plain = Value.str "~" ∧
    _make_scalar "True" Style.plain = Value.str "True" ∧
    _make_scalar "TRUE" Style.plain = Value.str "TRUE" ∧
    _make_scalar "False" Style.plain = Value.str "False" ∧
    _make_scalar "FALSE" Style.plain = Value.str "FALSE" := by
  refine ⟨?_, ?_, rfl, rfl, rfl, rfl, rfl, rfl, rfl⟩
  · intro text style
    unfold _make_scalar
    by_cases hg : (text.length = 0 ∨ style = Style.singleQuoted ∨ style = Style.doubleQuoted)
    · rw [if_pos hg]
      constructor
      · intro h
        exact absurd h (by simp)
      · rintro ⟨rfl, h1, h2⟩
        rcases hg with h0 | h0 | h0
        · exact absurd h0 (by decide)
        · exact absurd h0 h1
        · exact absurd h0 h2
    · rw [if_neg hg]
      push_neg at hg
      obtain ⟨hl, h1, h2⟩ := hg
      rw [resolveCore_eq_null_iff]
      constructor
      · intro h
        exact ⟨eq_mk_of_toList_eq h, h1, h2⟩
      · rintro ⟨rfl, _, _⟩
        rfl
  · intro text style b
    unfold _make_scalar
    by_cases hg : (text.length = 0 ∨ style = Style.singleQuoted ∨ style = Style.doubleQuoted)
    · rw [if_pos hg]
      constructor
      · intro h
        exact absurd h (by simp)
      · rintro ⟨hb, h1, h2⟩
        rcases hg with h0 | h0 | h0
        · rcases hb with ⟨rfl, _⟩ | ⟨rfl, _⟩ <;> exact absurd h0 (by decide)
        · exact absurd h0 h1
        · exact absurd h0 h2
    · rw [if_neg hg]
      push_neg at hg
      obtain ⟨hl, h1, h2⟩ := hg
      rw [resolveCore_eq_bool_iff]
      constructor
      · rintro (⟨h, rfl⟩ | ⟨h, rfl⟩)
        · exact ⟨Or.inl ⟨eq_mk_of_toList_eq h, rfl⟩, h1, h2⟩
        · exact ⟨Or.inr ⟨eq_mk_of_toList_eq h, rfl⟩, h1, h2⟩
      · rintro ⟨⟨rfl, rfl⟩ | ⟨rfl, rfl⟩, _, _⟩
        · exact Or.inl ⟨rfl, rfl⟩
        · exact Or.inr ⟨rfl, rfl⟩

end FastYaml